import Mathlib

/-!
Verification development for the DuckDB Grafana data-source driver
(`pkg/plugin/duckdb_driver.go`).

Go strings are modelled as their character lists (`List Char`); string
literals of the source appear as Lean string literals converted with
`.data`.  Fallible Go calls are modelled with `Except`, the database
executor used by the boot sequence is an abstract function
`List Char → Except E Unit`, and the driver's mutable `Initialized`
flag becomes explicit state passing.
-/

/-! ### Go string primitives used by the driver -/

/-- `unicode.IsSpace`: Unicode White_Space code points (the set Go's
`strings.TrimSpace` trims). -/
def goIsSpace (c : Char) : Bool :=
  let n := c.toNat
  (9 ≤ n && n ≤ 13) || n == 32 || n == 133 || n == 160 || n == 5760 ||
    (8192 ≤ n && n ≤ 8202) || n == 8232 || n == 8233 || n == 8239 || n == 8287 || n == 12288

/-- `strings.TrimSpace`: drop leading and trailing white space. -/
def goTrimSpace (s : List Char) : List Char :=
  ((s.dropWhile goIsSpace).reverse.dropWhile goIsSpace).reverse

/-- The single-quote character `'`. -/
def sqc : Char := '\''

/-- The double-quote character `"`. -/
def dqc : Char := '"'

/-- `strings.ReplaceAll(s, "'", "''")`: with a one-character pattern this
replaces every occurrence of `'` by `''`, i.e. doubles each single quote. -/
def escapeQuotes : List Char → List Char
  | [] => []
  | c :: rest => if c = sqc then sqc :: sqc :: escapeQuotes rest else c :: escapeQuotes rest

/-! ### Settings and the `Connect` path validation
(`DuckDBDriver.Connect`, duckdb_driver.go lines 53-141).

`models.LoadPluginSettings` (JSON decoding, outside the two staged source
files) is not modelled; the model starts from the decoded settings value
with fields `Path`, `InitSql` and `Secrets.MotherDuckToken`. -/

structure Secrets where
  motherDuckToken : List Char
deriving DecidableEq

structure PluginSettings where
  path : List Char
  initSql : List Char
  secrets : Secrets
deriving DecidableEq

/-- The host environment: `os.Getenv("GF_PATHS_DATA")` (empty = unset). -/
structure HostEnv where
  gfPathsData : List Char
deriving DecidableEq

/-- The connection mode chosen by the branch on the (trimmed) path:
`md:`-prefixed target → remote MotherDuck attach over an in-memory base;
non-empty other target → local file; empty target → in-memory. -/
inductive PathMode
  | remote
  | localFile
  | memory
deriving DecidableEq

/-- The quote check of `Connect`: the trimmed path both starts and ends
with `'`, or both starts and ends with `"`. -/
def quoteWrapped (t : List Char) : Bool :=
  ([sqc].isPrefixOf t && [sqc].isSuffixOf t) || ([dqc].isPrefixOf t && [dqc].isSuffixOf t)

/-- The pure validation prefix of `Connect` (lines 60-83): rejects a
quote-wrapped trimmed path, rejects a `md:` path without a MotherDuck
token, and otherwise yields the connector path together with the mode
the branch selected. -/
def connectValidate (config : PluginSettings) : Except (List Char) (List Char × PathMode) :=
  let trimmedPath := goTrimSpace config.path
  let cleanPath := trimmedPath
  if quoteWrapped trimmedPath then
    .error ("Invalid path: ".data ++ trimmedPath ++ " -> example input: md:sample_data".data)
  else if "md:".data.isPrefixOf cleanPath then
    if config.secrets.motherDuckToken = [] then
      .error "MotherDuck Token is missing for motherduck connection".data
    else
      .ok ([], .remote)
  else if trimmedPath ≠ [] then
    .ok (trimmedPath, .localFile)
  else
    .ok ([], .memory)

/-! ### The boot query sequence (lines 88-126) -/

/-- `filepath.Join(a, b)` for the clean relative paths used here:
concatenation with the separator. -/
def fpJoin (a b : List Char) : List Char := a ++ ('/' :: b)

def installMotherduckQ : List Char := "INSTALL 'motherduck';".data

def loadMotherduckQ : List Char := "LOAD 'motherduck';".data

def setTokenQ (token : List Char) : List Char :=
  "SET motherduck_token='".data ++ token ++ "';".data

/-- The `ATTACH` statement built at lines 107-110: the trimmed target,
single-quote-escaped and wrapped in single quotes, with the
`IF NOT EXISTS` guard. -/
def attachStatement (cleanPath : List Char) : List Char :=
  "ATTACH IF NOT EXISTS ".data ++ (sqc :: (escapeQuotes cleanPath ++ [sqc])) ++
    " (TYPE motherduck);".data

/-- The boot query list built inside the connector callback (lines
88-119): directory settings when `GF_PATHS_DATA` is set, then the
MotherDuck extension / token / attach statements as selected by the
`md:` prefix and the token, then the user init SQL when non-blank. -/
def bootQueries (env : HostEnv) (config : PluginSettings) : List (List Char) :=
  let cleanPath := goTrimSpace config.path
  let homePath := env.gfPathsData
  (if homePath ≠ [] then
    ["SET home_directory='".data ++ homePath ++ "';".data,
     "SET extension_directory='".data ++ fpJoin homePath ".duckdb/extensions".data ++ "';".data,
     "SET secret_directory='".data ++ fpJoin homePath ".duckdb/stored_secrets".data ++ "';".data]
  else []) ++
  (if "md:".data.isPrefixOf cleanPath then
    [installMotherduckQ, loadMotherduckQ, setTokenQ config.secrets.motherDuckToken,
     attachStatement cleanPath]
  else if config.secrets.motherDuckToken ≠ [] then
    [installMotherduckQ, loadMotherduckQ, setTokenQ config.secrets.motherDuckToken]
  else []) ++
  (if goTrimSpace config.initSql ≠ [] then [config.initSql] else [])

/-- Run the boot queries in order against the executor, stopping at the
first failing statement and returning its error (the loop at lines
120-126). -/
def runBootQueries {E : Type} (ex : List Char → Except E Unit) :
    List (List Char) → Except E Unit
  | [] => .ok ()
  | q :: rest =>
    match ex q with
    | .error e => .error e
    | .ok _ => runBootQueries ex rest

/-- The statements the loop actually hands to the executor: every
statement up to and including the first failing one. -/
def attemptedQueries {E : Type} (ex : List Char → Except E Unit) :
    List (List Char) → List (List Char)
  | [] => []
  | q :: rest =>
    match ex q with
    | .error _ => [q]
    | .ok _ => q :: attemptedQueries ex rest

/-! ### The driver state machine of `Connect` -/

/-- The driver's mutable state: the `Initialized` flag (the mutex only
serialises the callback and is not modelled). -/
structure DriverState where
  initialized : Bool
deriving DecidableEq

inductive ConnectOutcome (E : Type)
  | configError (msg : List Char)
  | bootError (e : E)
  | connected
deriving DecidableEq

/-- The connector callback (lines 85-132): when the flag is unset, run
the boot queries; on success set the flag, on failure keep it unset and
return the error.  When the flag is already set, do nothing. -/
def connInit {E : Type} (ex : List Char → Except E Unit) (env : HostEnv)
    (config : PluginSettings) (st : DriverState) : DriverState × Except E Unit :=
  if st.initialized then (st, .ok ())
  else
    match runBootQueries ex (bootQueries env config) with
    | .ok _ => (⟨true⟩, .ok ())
    | .error e => (st, .error e)

/-- One `Connect` call: validate the configured target, then run the
connector callback; a callback error is returned as the connection
error (lines 134-136). -/
def Connect {E : Type} (ex : List Char → Except E Unit) (env : HostEnv)
    (config : PluginSettings) (st : DriverState) : DriverState × ConnectOutcome E :=
  match connectValidate config with
  | .error m => (st, .configError m)
  | .ok _ =>
    match connInit ex env config st with
    | (st2, .ok _) => (st2, .connected)
    | (st2, .error e) => (st2, .bootError e)

/-- The statements a `Connect` call hands to the engine: none when
validation fails or the flag is already set, otherwise the attempted
prefix of the boot queries. -/
def connectAttempted {E : Type} (ex : List Char → Except E Unit) (env : HostEnv)
    (config : PluginSettings) (st : DriverState) : List (List Char) :=
  match connectValidate config with
  | .error _ => []
  | .ok _ => if st.initialized then [] else attemptedQueries ex (bootQueries env config)

/-! ### Decimal digit strings

`natDec n` is the base-10 digit string of `n`, most significant digit
first — the representation `big.Int.String`, `fmt`'s `%d` and
`strconv` all use. -/

def digitCh (d : Nat) : Char :=
  match d with
  | 0 => '0' | 1 => '1' | 2 => '2' | 3 => '3' | 4 => '4'
  | 5 => '5' | 6 => '6' | 7 => '7' | 8 => '8' | _ => '9'

def natDecAux : Nat → Nat → List Char
  | 0, _ => []
  | fuel + 1, n =>
    if n < 10 then [digitCh n]
    else natDecAux fuel (n / 10) ++ [digitCh (n % 10)]

def natDec (n : Nat) : List Char := natDecAux (n + 1) n

/-- The base-10 integer string with a leading minus sign on negatives
(the format of `big.Int.String`). -/
def intDec (v : Int) : List Char :=
  if v < 0 then '-' :: natDec v.natAbs else natDec v.toNat

def isDigitCh (c : Char) : Bool := '0' ≤ c && c ≤ '9'

def digitVal (c : Char) : Nat := c.toNat - 48

/-- The numeric value of a digit string (most significant first). -/
def decValue (cs : List Char) : Nat := cs.foldl (fun a c => 10 * a + digitVal c) 0

/-- Reading a character list as an unsigned base-10 numeral: non-empty,
digits only. -/
def readDecNat (cs : List Char) : Option Nat :=
  if cs ≠ [] ∧ cs.all isDigitCh then some (decValue cs) else none

/-- Reading a character list as a base-10 integer with an optional sign. -/
def readDecInt (cs : List Char) : Option Int :=
  match cs with
  | [] => none
  | c :: rest =>
    if c = '-' then (readDecNat rest).map (fun k : Nat => -(k : Int))
    else if c = '+' then (readDecNat rest).map (fun k : Nat => (k : Int))
    else (readDecNat cs).map (fun k : Nat => (k : Int))

/-! ### `time.Time` and RFC 3339 formatting

An instant is modelled by its Unix time in whole seconds (`RFC3339`
prints no sub-second digits, and after `.UTC()` the offset prints as
`Z`). -/

structure GoTime where
  unixSec : Int
deriving DecidableEq

structure TimeRange where
  fromTime : GoTime
  toTime : GoTime
deriving DecidableEq

/-- The part of `sqlutil.Query` the macros read. -/
structure SqlQuery where
  timeRange : TimeRange
deriving DecidableEq

/-- Proleptic-Gregorian civil date from days since 1970-01-01
(the standard era-based algorithm; all intermediate quantities are
non-negative, so truncating division is exact). -/
def civilFromDays (z0 : Int) : Int × Nat × Nat :=
  let z := z0 + 719468
  let era : Int := (if 0 ≤ z then z else z - 146096) / 146097
  let doe : Int := z - era * 146097
  let yoe : Int := (doe - doe / 1460 + doe / 36524 - doe / 146096) / 365
  let y : Int := yoe + era * 400
  let doy : Int := doe - (365 * yoe + yoe / 4 - yoe / 100)
  let mp : Int := (5 * doy + 2) / 153
  let d : Int := doy - (153 * mp + 2) / 5 + 1
  let m : Int := mp + (if mp < 10 then 3 else -9)
  (y + (if m ≤ 2 then 1 else 0), m.toNat, d.toNat)

def pad2 (n : Nat) : List Char := if n < 10 then '0' :: natDec n else natDec n

def pad4 (n : Nat) : List Char :=
  if n < 10 then '0' :: '0' :: '0' :: natDec n
  else if n < 100 then '0' :: '0' :: natDec n
  else if n < 1000 then '0' :: natDec n
  else natDec n

def pad4Int (y : Int) : List Char := if y < 0 then '-' :: pad4 y.natAbs else pad4 y.toNat

/-- `t.UTC().Format(time.RFC3339)`: `yyyy-mm-ddThh:mm:ssZ`. -/
def rfc3339UTC (t : GoTime) : List Char :=
  let days := t.unixSec.fdiv 86400
  let sod := (t.unixSec.emod 86400).toNat
  let ymd := civilFromDays days
  pad4Int ymd.1 ++ '-' :: pad2 ymd.2.1 ++ '-' :: pad2 ymd.2.2 ++
    'T' :: pad2 (sod / 3600) ++ ':' :: pad2 ((sod / 60) % 60) ++ ':' :: pad2 (sod % 60) ++ ['Z']

/-! ### The macro table (lines 160-179) -/

/-- The error built by `fmt.Errorf("%w: expected 0 arguments, received %d",
sqlutil.ErrorBadArgumentCount, len(args))`; the wrapped sentinel lives in
the external SDK, the carried detail is the formatted message tail. -/
inductive MacroError
  | badArgumentCount (detail : List Char)
deriving DecidableEq

/-- `macroTimeFrom` (lines 167-172): Go's `(string, error)` pair is the
rendered fragment together with an optional error. -/
def macroTimeFrom (query : SqlQuery) (args : List (List Char)) :
    List Char × Option MacroError :=
  if args.length = 0 ∨ (args.length = 1 ∧ goTrimSpace (args.headD []) = []) then
    (sqc :: (rfc3339UTC query.timeRange.fromTime ++ [sqc]), none)
  else
    ([], some (.badArgumentCount ("expected 0 arguments, received ".data ++ natDec args.length)))

/-- `macroTimeTo` (lines 174-179). -/
def macroTimeTo (query : SqlQuery) (args : List (List Char)) :
    List Char × Option MacroError :=
  if args.length = 0 ∨ (args.length = 1 ∧ goTrimSpace (args.headD []) = []) then
    (sqc :: (rfc3339UTC query.timeRange.toTime ++ [sqc]), none)
  else
    ([], some (.badArgumentCount ("expected 0 arguments, received ".data ++ natDec args.length)))

/-! ### The type converter registry (`GetConverterList`, lines 249-458) -/

inductive FieldType
  | nullableString
  | nullableFloat64
  | nullableInt16
deriving DecidableEq

/-- Which conversion function a rule carries. -/
inductive ConvKind
  | hugeIntToStr
  | decimalToFloat
  | textToInt16
  | textToFloat64
deriving DecidableEq

/-- How a rule is matched against a native type name: by `InputTypeName`
(exact) or by `InputTypeRegex` — the only regex in the list is
`DECIMAL.*`. -/
inductive TypeMatcher
  | exactName (n : List Char)
  | decimalRegex
deriving DecidableEq

structure ConverterRule where
  name : List Char
  matcher : TypeMatcher
  fieldType : FieldType
  kind : ConvKind
deriving DecidableEq

def hugeIntRule : ConverterRule :=
  ⟨"handle HUGEINT (returns *big.Int)".data, .exactName "HUGEINT".data,
   .nullableString, .hugeIntToStr⟩

def decimalRule : ConverterRule :=
  ⟨"NULLABLE decimal converter".data, .decimalRegex, .nullableFloat64, .decimalToFloat⟩

/-- The eight `sqlutil.StringConverter`s of `strConverters`, in source
order; the replacer's output field type and parse function are the
rule's `fieldType` and `kind`. -/
def strRules : List ConverterRule :=
  [⟨"handle FLOAT8".data, .exactName "FLOAT8".data, .nullableFloat64, .textToFloat64⟩,
   ⟨"handle FLOAT32".data, .exactName "FLOAT32".data, .nullableFloat64, .textToFloat64⟩,
   ⟨"handle FLOAT".data, .exactName "FLOAT".data, .nullableFloat64, .textToFloat64⟩,
   ⟨"handle INT2".data, .exactName "INT2".data, .nullableInt16, .textToInt16⟩,
   ⟨"handle INT8".data, .exactName "INT8".data, .nullableInt16, .textToInt16⟩,
   ⟨"handle TINYINT".data, .exactName "TINYINT".data, .nullableInt16, .textToInt16⟩,
   ⟨"handle INT16".data, .exactName "INT16".data, .nullableInt16, .textToInt16⟩,
   ⟨"handle SMALLINT".data, .exactName "SMALLINT".data, .nullableInt16, .textToInt16⟩]

/-- `GetConverterList` (lines 249-458): `bigIntConverters ++ converters
++ strConverters` in that order. -/
def GetConverterList : List ConverterRule :=
  (hugeIntRule :: [decimalRule]) ++ strRules

/-- Substring test: `pat` occurs somewhere in the argument. -/
def containsSub (pat : List Char) : List Char → Bool
  | [] => pat.isPrefixOf []
  | c :: rest => pat.isPrefixOf (c :: rest) || containsSub pat rest

/-- `regexp.MustCompile("DECIMAL.*")` matching is unanchored, so a name
matches exactly when it contains `DECIMAL`. -/
def matchesDecimalRegex (name : List Char) : Bool := containsSub "DECIMAL".data name

/-- Whether a rule applies to a native type name. -/
def ruleMatches (r : ConverterRule) (name : List Char) : Bool :=
  match r.matcher with
  | .exactName n => n == name
  | .decimalRegex => matchesDecimalRegex name

/-- The selection policy over the converter list: an exact type-name
match wins; otherwise the first rule whose regex matches; otherwise
none (the value passes through unconverted). -/
def selectRule (name : List Char) : Option ConverterRule :=
  match GetConverterList.find? (fun r =>
      match r.matcher with
      | .exactName n => n == name
      | .decimalRegex => false) with
  | some r => some r
  | none =>
    GetConverterList.find? (fun r =>
      match r.matcher with
      | .exactName _ => false
      | .decimalRegex => matchesDecimalRegex name)

/-! ### The conversion functions (C4, C5) -/

/-- The HUGEINT converter function (lines 264-271).  A scanned
`NullBigInt` is `none` when the native value was null (`Valid` false or
a nil `*big.Int`), otherwise the 128-bit integer; `big.Int.String`
formats base-10 with a minus sign. -/
def hugeIntConvert (v : Option Int) : Option (List Char) :=
  match v with
  | none => none
  | some n => some (intDec n)

inductive ParseNumErr
  | syntaxErr
  | rangeErr
deriving DecidableEq

/-- `strconv.ParseInt(s, 10, 16)`: an optional sign followed by at least
one decimal digit (the reading `readDecInt` performs); a malformed
string is a syntax error, a value outside the signed 16-bit range a
range error. -/
def goParseIntDec16 (s : List Char) : Except ParseNumErr Int :=
  match readDecInt s with
  | none => .error .syntaxErr
  | some v =>
    if v < -(2 ^ 15) ∨ (2 ^ 15 : Int) ≤ v then .error .rangeErr else .ok v

/-- The shared `ReplaceFunc` of the narrow-integer string converters
(e.g. lines 341-352): nil input stays null, otherwise the text is parsed
with `strconv.ParseInt(_, 10, 16)` and a parse error is returned to the
caller. -/
def int16Replace (input : Option (List Char)) : Except ParseNumErr (Option Int) :=
  match input with
  | none => .ok none
  | some s =>
    match goParseIntDec16 s with
    | .error e => .error e
    | .ok v => .ok (some v)

/-! ### Segment view of the boot sequence (the order claimed in §3 of
the specification), and the quote-pairing predicate for the attach
statement. -/

/-- The directory-configuration statements, present when the host data
path is set. -/
def dirSegment (env : HostEnv) : List (List Char) :=
  if env.gfPathsData ≠ [] then
    ["SET home_directory='".data ++ env.gfPathsData ++ "';".data,
     "SET extension_directory='".data ++ fpJoin env.gfPathsData ".duckdb/extensions".data ++ "';".data,
     "SET secret_directory='".data ++ fpJoin env.gfPathsData ".duckdb/stored_secrets".data ++ "';".data]
  else []

/-- Extension install/load and token set, present when remote mode or a
token is present. -/
def extTokenSegment (config : PluginSettings) : List (List Char) :=
  if "md:".data.isPrefixOf (goTrimSpace config.path) = true ∨
      config.secrets.motherDuckToken ≠ [] then
    [installMotherduckQ, loadMotherduckQ, setTokenQ config.secrets.motherDuckToken]
  else []

/-- The remote attach, present in remote mode. -/
def attachSegment (config : PluginSettings) : List (List Char) :=
  if "md:".data.isPrefixOf (goTrimSpace config.path) = true then
    [attachStatement (goTrimSpace config.path)]
  else []

/-- The user init SQL, present when non-blank. -/
def initSegment (config : PluginSettings) : List (List Char) :=
  if goTrimSpace config.initSql ≠ [] then [config.initSql] else []

/-- Every single quote in the list is immediately followed by a second
one (quotes only occur escaped, as `''`). -/
def noLoneQuote : List Char → Bool
  | [] => true
  | c :: rest =>
    if c = sqc then
      match rest with
      | [] => false
      | c2 :: rest2 => c2 == sqc && noLoneQuote rest2
    else noLoneQuote rest

/-! ### Concrete fixtures for witnesses and counterexamples -/

/-- A MotherDuck configuration: target `md:sample`, token `t`, no init
SQL. -/
def cfgMd : PluginSettings := ⟨"md:sample".data, [], ⟨"t".data⟩⟩

/-- A host environment with `GF_PATHS_DATA` unset. -/
def envEmpty : HostEnv := ⟨[]⟩

/-- An executor that fails on the `INSTALL` statement. -/
def exFailInstall : List Char → Except Nat Unit :=
  fun q => if q = installMotherduckQ then .error 0 else .ok ()

/-- An executor that fails on the `LOAD` statement. -/
def exFailLoad : List Char → Except Nat Unit :=
  fun q => if q = loadMotherduckQ then .error 7 else .ok ()

/-- A query whose time range is the Unix epoch. -/
def qEpoch : SqlQuery := ⟨⟨⟨0⟩, ⟨0⟩⟩⟩

/-! ### Helper lemmas: decimal digit strings -/

lemma isDigitCh_digitCh {d : Nat} (h : d < 10) : isDigitCh (digitCh d) = true := by
  interval_cases d <;> decide

lemma digitVal_digitCh {d : Nat} (h : d < 10) : digitVal (digitCh d) = d := by
  interval_cases d <;> decide

lemma decValue_append_single (xs : List Char) (c : Char) :
    decValue (xs ++ [c]) = 10 * decValue xs + digitVal c := by
  simp [decValue, List.foldl_append]

lemma natDecAux_spec : ∀ fuel n, n < fuel →
    natDecAux fuel n ≠ [] ∧ (natDecAux fuel n).all isDigitCh = true ∧
      decValue (natDecAux fuel n) = n := by
  intro fuel
  induction fuel with
  | zero => intro n hn; omega
  | succ f ih =>
    intro n hn
    by_cases h10 : n < 10
    · refine ⟨by simp [natDecAux, h10], ?_, ?_⟩
      · simp [natDecAux, h10, isDigitCh_digitCh h10]
      · simp [natDecAux, h10, decValue, digitVal_digitCh h10]
    · have hdiv : n / 10 < f := by omega
      obtain ⟨h1, h2, h3⟩ := ih (n / 10) hdiv
      have hmod : n % 10 < 10 := Nat.mod_lt _ (by omega)
      refine ⟨by simp [natDecAux, h10], ?_, ?_⟩
      · simp [natDecAux, h10, List.all_append, h2, isDigitCh_digitCh hmod]
      · simp [natDecAux, h10, decValue_append_single, h3, digitVal_digitCh hmod]
        omega

lemma natDec_spec (n : Nat) :
    natDec n ≠ [] ∧ (natDec n).all isDigitCh = true ∧ decValue (natDec n) = n :=
  natDecAux_spec (n + 1) n (by omega)

lemma readDecNat_natDec (n : Nat) : readDecNat (natDec n) = some n := by
  obtain ⟨h1, h2, h3⟩ := natDec_spec n
  simp [readDecNat, h1, h2, h3]

lemma natDec_head_digit (n : Nat) :
    ∃ c cs, natDec n = c :: cs ∧ isDigitCh c = true := by
  obtain ⟨h1, h2, -⟩ := natDec_spec n
  cases hd : natDec n with
  | nil => exact absurd hd h1
  | cons c cs =>
    refine ⟨c, cs, rfl, ?_⟩
    rw [hd] at h2
    simp [List.all_cons] at h2
    exact h2.1

lemma readDecInt_intDec (v : Int) : readDecInt (intDec v) = some v := by
  by_cases hv : v < 0
  · have : intDec v = '-' :: natDec v.natAbs := by simp [intDec, hv]
    rw [this]
    simp [readDecInt, readDecNat_natDec]
    rw [abs_of_neg hv, neg_neg]
  · have : intDec v = natDec v.toNat := by simp [intDec, hv]
    rw [this]
    obtain ⟨c, cs, hd, hdig⟩ := natDec_head_digit v.toNat
    have hcm : ¬c = '-' := by
      intro h; rw [h] at hdig; simp [isDigitCh] at hdig
    have hcp : ¬c = '+' := by
      intro h; rw [h] at hdig; simp [isDigitCh] at hdig
    rw [hd]
    have := readDecNat_natDec v.toNat
    rw [hd] at this
    simp [readDecInt, hcm, hcp, this]
    omega

/-! ### Helper lemmas: boot sequence execution -/

lemma runBootQueries_abort {E : Type} (ex : List Char → Except E Unit) :
    ∀ (qs : List (List Char)) (i : Nat) (hi : i < qs.length) (e : E),
      (∀ j (hj : j < qs.length), j < i → ex (qs.get ⟨j, hj⟩) = .ok ()) →
      ex (qs.get ⟨i, hi⟩) = .error e →
      runBootQueries ex qs = .error e ∧ attemptedQueries ex qs = qs.take (i + 1) := by
  intro qs
  induction qs with
  | nil => intro i hi; simp at hi
  | cons q rest ih =>
    intro i hi e hok hfail
    cases i with
    | zero =>
      simp only [List.get] at hfail
      constructor
      · simp [runBootQueries, hfail]
      · simp [attemptedQueries, hfail]
    | succ i' =>
      have hq : ex q = .ok () := hok 0 (by simp) (by omega)
      have hi' : i' < rest.length := by simpa using hi
      have hok' : ∀ j (hj : j < rest.length), j < i' → ex (rest.get ⟨j, hj⟩) = .ok () := by
        intro j hj hji
        have := hok (j + 1) (by simpa using Nat.succ_lt_succ hj) (by omega)
        simpa using this
      have hfail' : ex (rest.get ⟨i', hi'⟩) = .error e := by simpa using hfail
      obtain ⟨h1, h2⟩ := ih i' hi' e hok' hfail'
      constructor
      · simp [runBootQueries, hq, h1]
      · simp [attemptedQueries, hq, h2]

lemma bootQueries_segments (env : HostEnv) (config : PluginSettings) :
    bootQueries env config =
      dirSegment env ++ extTokenSegment config ++ attachSegment config ++
        initSegment config := by
  by_cases hmd : "md:".data.isPrefixOf (goTrimSpace config.path) = true
  · simp [bootQueries, dirSegment, extTokenSegment, attachSegment, initSegment, hmd]
  · by_cases htok : config.secrets.motherDuckToken = []
    · simp [bootQueries, dirSegment, extTokenSegment, attachSegment, initSegment, hmd, htok]
    · simp [bootQueries, dirSegment, extTokenSegment, attachSegment, initSegment, hmd, htok]

/-! ### Helper lemmas: quoting -/

lemma noLoneQuote_cons_ne {c : Char} (h : ¬c = sqc) (rest : List Char) :
    noLoneQuote (c :: rest) = noLoneQuote rest := by
  cases rest <;> simp [noLoneQuote, h]

lemma noLoneQuote_escapeQuotes (s : List Char) : noLoneQuote (escapeQuotes s) = true := by
  induction s with
  | nil => rfl
  | cons c rest ih =>
    by_cases h : c = sqc
    · simp [escapeQuotes, h, noLoneQuote, ih]
    · simp [escapeQuotes, h, noLoneQuote_cons_ne h, ih]

lemma quoteWrapped_false_of_md {t : List Char}
    (h : "md:".data.isPrefixOf t = true) : quoteWrapped t = false := by
  rw [List.isPrefixOf_iff_prefix] at h
  obtain ⟨rest, hrest⟩ := h
  have ht : t = 'm' :: 'd' :: ':' :: rest := by
    rw [← hrest]; rfl
  subst ht
  simp [quoteWrapped, sqc, dqc, List.isPrefixOf]

/-! ### Claim theorems -/

/-- Claim C1: when some boot statement fails, `Connect` leaves the
`Initialized` flag false and returns the statement's error as the
connection error; the retrying call behaves exactly like the first one
and attempts the full boot sequence from its first statement, and no
call from an uninitialized state ends initialized unless every boot
statement succeeded. -/
theorem Connect_bootFailure_keepsUninitialized {E : Type}
    (ex : List Char → Except E Unit) (env : HostEnv) (config : PluginSettings)
    (p : List Char × PathMode) (e : E)
    (hv : connectValidate config = .ok p)
    (hb : runBootQueries ex (bootQueries env config) = .error e) :
    Connect ex env config ⟨false⟩ = (⟨false⟩, .bootError e) ∧
    Connect ex env config (Connect ex env config ⟨false⟩).1 = Connect ex env config ⟨false⟩ ∧
    connectAttempted ex env config ⟨false⟩ = attemptedQueries ex (bootQueries env config) ∧
    (∀ st : DriverState, (Connect ex env config st).1.initialized = true →
      st.initialized = true) := by
  have h1 : Connect ex env config ⟨false⟩ = (⟨false⟩, .bootError e) := by
    simp [Connect, hv, connInit, hb]
  refine ⟨h1, by rw [h1]; exact h1, ?_, ?_⟩
  · simp [connectAttempted, hv]
  · intro st hst
    obtain ⟨b⟩ := st
    cases b with
    | true => rfl
    | false => rw [h1] at hst; simp at hst

/-- Witness for C1 at a concrete MotherDuck configuration whose
executor fails on the first boot statement (`INSTALL`). -/
theorem Connect_bootFailure_keepsUninitialized_witness :
    Connect exFailInstall envEmpty cfgMd ⟨false⟩ = (⟨false⟩, .bootError 0) :=
  (Connect_bootFailure_keepsUninitialized exFailInstall envEmpty cfgMd
    ([], PathMode.remote) 0 (by rfl) (by rfl)).1

/-- Claim C6: a target whose trimmed value is wrapped in matching single
or double quotes is rejected with the `Invalid path` configuration
error, with no statement handed to the engine and the state unchanged,
while an unquoted `md:sample` target (with a token configured) passes
validation and is routed to remote mode. -/
theorem Connect_rejectsQuotedTarget {E : Type}
    (ex : List Char → Except E Unit) (env : HostEnv) (config : PluginSettings)
    (st : DriverState)
    (h : quoteWrapped (goTrimSpace config.path) = true) :
    Connect ex env config st =
      (st, .configError ("Invalid path: ".data ++ goTrimSpace config.path ++
        " -> example input: md:sample_data".data)) ∧
    connectAttempted ex env config st = [] ∧
    (∀ config2 : PluginSettings, goTrimSpace config2.path = "md:sample".data →
      config2.secrets.motherDuckToken ≠ [] →
      connectValidate config2 = .ok ([], .remote)) := by
  refine ⟨?_, ?_, ?_⟩
  · simp [Connect, connectValidate, h]
  · simp [connectAttempted, connectValidate, h]
  · intro config2 htrim htok
    simp [connectValidate, htrim, htok]
    decide

/-- Witness for C6 at the two quoted targets of the specification and
the accepted unquoted one. -/
theorem Connect_rejectsQuotedTarget_witness :
    (Connect (fun _ => Except.ok ()) envEmpty ⟨"'md:sample'".data, [], ⟨"t".data⟩⟩ ⟨false⟩ =
      (⟨false⟩, ConnectOutcome.configError (E := Unit)
        ("Invalid path: ".data ++ "'md:sample'".data ++
          " -> example input: md:sample_data".data))) ∧
    (Connect (fun _ => Except.ok ()) envEmpty ⟨"\"md:sample\"".data, [], ⟨"t".data⟩⟩ ⟨false⟩ =
      (⟨false⟩, ConnectOutcome.configError (E := Unit)
        ("Invalid path: ".data ++ "\"md:sample\"".data ++
          " -> example input: md:sample_data".data))) ∧
    connectValidate cfgMd = .ok ([], .remote) := by
  refine ⟨?_, ?_, ?_⟩
  · have := (Connect_rejectsQuotedTarget (E := Unit) (fun _ => Except.ok ()) envEmpty
      ⟨"'md:sample'".data, [], ⟨"t".data⟩⟩ ⟨false⟩ (by decide)).1
    rw [this]
    rfl
  · have := (Connect_rejectsQuotedTarget (E := Unit) (fun _ => Except.ok ()) envEmpty
      ⟨"\"md:sample\"".data, [], ⟨"t".data⟩⟩ ⟨false⟩ (by decide)).1
    rw [this]
    rfl
  · exact (Connect_rejectsQuotedTarget (E := Unit) (fun _ => Except.ok ()) envEmpty
      ⟨"'md:sample'".data, [], ⟨"t".data⟩⟩ ⟨false⟩ (by decide)).2.2 cfgMd (by decide) (by decide)

/-- Claim C7: on a remote (`md:`-prefixed) target with an empty
MotherDuck token, `Connect` returns the missing-token configuration
error, hands no statement to the engine, and leaves the driver state
unchanged. -/
theorem Connect_missingToken {E : Type}
    (ex : List Char → Except E Unit) (env : HostEnv) (config : PluginSettings)
    (st : DriverState)
    (hmd : "md:".data.isPrefixOf (goTrimSpace config.path) = true)
    (htok : config.secrets.motherDuckToken = []) :
    Connect ex env config st =
      (st, .configError "MotherDuck Token is missing for motherduck connection".data) ∧
    connectAttempted ex env config st = [] := by
  have hq := quoteWrapped_false_of_md hmd
  constructor
  · simp [Connect, connectValidate, hq, hmd, htok]
  · simp [connectAttempted, connectValidate, hq, hmd, htok]

/-- Witness for C7 at target `md:sample` with an empty token. -/
theorem Connect_missingToken_witness :
    Connect (fun _ => Except.ok ()) envEmpty ⟨"md:sample".data, [], ⟨[]⟩⟩ ⟨false⟩ =
      (⟨false⟩, ConnectOutcome.configError (E := Unit)
        "MotherDuck Token is missing for motherduck connection".data) :=
  (Connect_missingToken (fun _ => Except.ok ()) envEmpty
    ⟨"md:sample".data, [], ⟨[]⟩⟩ ⟨false⟩ (by decide) (by decide)).1

/-- Claim C8: the boot query list is always the fixed concatenation
directory-configuration ++ extension/token ++ remote attach ++ user init
SQL (each segment present under its stated condition), and when the
statement at position `i` fails while all earlier ones succeed, the loop
returns that error and executes no statement beyond position `i`. -/
theorem bootQueries_order_abort {E : Type}
    (ex : List Char → Except E Unit) (env : HostEnv) (config : PluginSettings)
    (i : Nat) (hi : i < (bootQueries env config).length) (e : E)
    (hok : ∀ j (hj : j < (bootQueries env config).length), j < i →
      ex ((bootQueries env config).get ⟨j, hj⟩) = .ok ())
    (hfail : ex ((bootQueries env config).get ⟨i, hi⟩) = .error e) :
    bootQueries env config =
      dirSegment env ++ extTokenSegment config ++ attachSegment config ++
        initSegment config ∧
    runBootQueries ex (bootQueries env config) = .error e ∧
    attemptedQueries ex (bootQueries env config) = (bootQueries env config).take (i + 1) := by
  obtain ⟨h1, h2⟩ := runBootQueries_abort ex (bootQueries env config) i hi e hok hfail
  exact ⟨bootQueries_segments env config, h1, h2⟩

/-- Witness for C8: with `GF_PATHS_DATA` unset and the `md:sample`
configuration, the executor failing on the second statement (`LOAD`)
aborts after exactly the first two statements. -/
theorem bootQueries_order_abort_witness :
    runBootQueries exFailLoad (bootQueries envEmpty cfgMd) = .error 7 ∧
    attemptedQueries exFailLoad (bootQueries envEmpty cfgMd) =
      (bootQueries envEmpty cfgMd).take 2 :=
  ((bootQueries_order_abort exFailLoad envEmpty cfgMd 1 (by decide) 7
    (by
      intro j hj hj1
      have : j = 0 := by omega
      subst this
      rfl)
    (by rfl)).2)

/-- Claim C9: the attach statement single-quote-escapes the target by
doubling each embedded quote, wraps it in single quotes and carries the
`IF NOT EXISTS` guard; the escaped identifier contains no lone single
quote, in remote mode the statement appears in the boot sequence, and
the specification's example target renders with the quote doubled. -/
theorem attachStatement_escapes (target : List Char) :
    attachStatement target =
      "ATTACH IF NOT EXISTS '".data ++ escapeQuotes target ++
        "' (TYPE motherduck);".data ∧
    noLoneQuote (escapeQuotes target) = true ∧
    (∀ (env : HostEnv) (config : PluginSettings),
      "md:".data.isPrefixOf (goTrimSpace config.path) = true →
      attachStatement (goTrimSpace config.path) ∈ bootQueries env config) ∧
    attachStatement "md:weird'name".data =
      "ATTACH IF NOT EXISTS 'md:weird''name' (TYPE motherduck);".data := by
  refine ⟨?_, noLoneQuote_escapeQuotes target, ?_, by decide⟩
  · have h1 : "ATTACH IF NOT EXISTS '".data =
        "ATTACH IF NOT EXISTS ".data ++ [sqc] := by decide
    have h2 : "' (TYPE motherduck);".data = [sqc] ++ " (TYPE motherduck);".data := by decide
    simp [attachStatement, h1, h2, sqc]
  · intro env config hmd
    simp [bootQueries, hmd]

/-- Witness for C9: the attach statement for the trimmed `md:sample`
target is among the boot queries of that configuration. -/
theorem attachStatement_escapes_witness :
    attachStatement (goTrimSpace cfgMd.path) ∈ bootQueries envEmpty cfgMd :=
  (attachStatement_escapes (goTrimSpace cfgMd.path)).2.2.1 envEmpty cfgMd (by decide)

/-- Claim C10: a single empty-or-whitespace argument is treated exactly
like a zero-argument invocation — both macros render the single-quoted
UTC RFC 3339 literal of the respective time bound and return no
error. -/
theorem macro_blankSingleArg (q : SqlQuery) (s : List Char)
    (h : goTrimSpace s = []) :
    macroTimeFrom q [s] = macroTimeFrom q [] ∧
    macroTimeFrom q [] = (sqc :: (rfc3339UTC q.timeRange.fromTime ++ [sqc]), none) ∧
    macroTimeTo q [s] = macroTimeTo q [] ∧
    macroTimeTo q [] = (sqc :: (rfc3339UTC q.timeRange.toTime ++ [sqc]), none) := by
  refine ⟨?_, ?_, ?_, ?_⟩ <;> simp [macroTimeFrom, macroTimeTo, h]

/-- Witness for C10 at a single space argument and the epoch query; the
render is the quoted epoch timestamp. -/
theorem macro_blankSingleArg_witness :
    macroTimeFrom qEpoch [" ".data] = macroTimeFrom qEpoch [] ∧
    macroTimeFrom qEpoch [" ".data] = ("'1970-01-01T00:00:00Z'".data, none) := by
  have h := macro_blankSingleArg qEpoch " ".data (by decide)
  exact ⟨h.1, by rw [h.1, h.2.1]; decide⟩

/-- Claim C2 counterexample: invoking either macro with the non-empty
argument list `[""]` (one element, the empty string) renders the
timestamp literal and returns no error, contradicting the claim that
every non-empty argument list yields an argument-count error. -/
theorem macro_emptyArg_renders_counterexample :
    macroTimeFrom qEpoch [[]] = ("'1970-01-01T00:00:00Z'".data, none) ∧
    macroTimeTo qEpoch [[]] = ("'1970-01-01T00:00:00Z'".data, none) := by decide

/-- Claim C2 (amended): for every argument list with at least one
element, except a single-element list whose element trims to the empty
string, both macros return the error `expected 0 arguments, received N`
(N the argument count) and render nothing; a zero-argument invocation
renders the quoted timestamp with no error. -/
theorem macro_nonBlank_argcount (q : SqlQuery) (args : List (List Char))
    (h1 : args ≠ [])
    (h2 : ¬(args.length = 1 ∧ goTrimSpace (args.headD []) = [])) :
    macroTimeFrom q args =
      ([], some (.badArgumentCount
        ("expected 0 arguments, received ".data ++ natDec args.length))) ∧
    macroTimeTo q args =
      ([], some (.badArgumentCount
        ("expected 0 arguments, received ".data ++ natDec args.length))) ∧
    macroTimeFrom q [] = (sqc :: (rfc3339UTC q.timeRange.fromTime ++ [sqc]), none) ∧
    macroTimeTo q [] = (sqc :: (rfc3339UTC q.timeRange.toTime ++ [sqc]), none) := by
  cases args with
  | nil => exact absurd rfl h1
  | cons a rest =>
    by_cases hr : rest.length = 0
    · by_cases hg : goTrimSpace a = []
      · exact absurd ⟨by simp [hr], hg⟩ h2
      · refine ⟨?_, ?_, ?_, ?_⟩ <;> simp [macroTimeFrom, macroTimeTo, hr, hg]
    · refine ⟨?_, ?_, ?_, ?_⟩ <;> simp [macroTimeFrom, macroTimeTo, hr]

/-- Witness for amended C2 at the one-argument list `["1"]`. -/
theorem macro_nonBlank_argcount_witness :
    macroTimeFrom qEpoch ["1".data] =
      ([], some (.badArgumentCount "expected 0 arguments, received 1".data)) := by
  have h := (macro_nonBlank_argcount qEpoch ["1".data] (by decide) (by decide)).1
  rw [h]
  decide

/-- Claim C4: the HUGEINT converter maps a null native value to a null
string (in particular not `"0"` and not `""`), maps every integer to its
exact base-10 decimal string — the string reads back to the same
integer, so there is no precision loss, also beyond `2^63` — and its
rule's output field type is nullable string. -/
theorem hugeIntConvert_exact :
    hugeIntConvert none = none ∧
    (∀ v : Int, hugeIntConvert (some v) = some (intDec v) ∧
      readDecInt (intDec v) = some v) ∧
    hugeIntRule.fieldType = .nullableString ∧
    hugeIntConvert (some ((2 : Int) ^ 64 + 10)) = some "18446744073709551626".data := by
  refine ⟨rfl, ?_, rfl, by decide⟩
  intro v
  exact ⟨rfl, readDecInt_intDec v⟩


/-- Claim C5: a nil narrow-integer input stays null; text that reads as
a base-10 integer in the signed 16-bit range converts to that value;
text that does not read as an integer yields the parse error, never a
zero or a null; `"32000"` and `"abc"` behave as the specification's
examples say; and each of the five narrow-integer type names INT2, INT8,
TINYINT, INT16, SMALLINT carries the text-to-int16 conversion with the
nullable int16 output type. -/
theorem int16Replace_parse (s : List Char) (n : Int)
    (hread : readDecInt s = some n)
    (hlo : -(2 ^ 15) ≤ n) (hhi : n < 2 ^ 15) :
    int16Replace (some s) = .ok (some n) ∧
    (∀ t : List Char, readDecInt t = none →
      int16Replace (some t) = .error .syntaxErr) ∧
    int16Replace none = .ok none ∧
    int16Replace (some "32000".data) = .ok (some 32000) ∧
    int16Replace (some "abc".data) = .error .syntaxErr ∧
    (∀ nm ∈ ["INT2".data, "INT8".data, "TINYINT".data, "INT16".data, "SMALLINT".data],
      ∃ r ∈ GetConverterList, r.matcher = .exactName nm ∧
        r.kind = .textToInt16 ∧ r.fieldType = .nullableInt16) := by
  refine ⟨?_, ?_, rfl, by rfl, by rfl, by decide⟩
  · simp only [int16Replace, goParseIntDec16, hread]
    rw [if_neg (by omega)]
  · intro t ht
    simp only [int16Replace, goParseIntDec16, ht]

/-- Witness for C5 at the specification's example `"32000"`. -/
theorem int16Replace_parse_witness :
    int16Replace (some "32000".data) = .ok (some 32000) :=
  (int16Replace_parse "32000".data 32000 (by decide) (by decide) (by decide)).1

lemma filter_eq_selectRule (name : List Char) :
    GetConverterList.filter (fun r => ruleMatches r name) = (selectRule name).toList := by
  by_cases h : name = "HUGEINT".data ∨ name = "FLOAT8".data ∨ name = "FLOAT32".data ∨
      name = "FLOAT".data ∨ name = "INT2".data ∨ name = "INT8".data ∨
      name = "TINYINT".data ∨ name = "INT16".data ∨ name = "SMALLINT".data
  · rcases h with rfl | rfl | rfl | rfl | rfl | rfl | rfl | rfl | rfl <;> decide
  · push_neg at h
    obtain ⟨h1, h2, h3, h4, h5, h6, h7, h8, h9⟩ := h
    have e1 : ("HUGEINT".data == name) = false := beq_eq_false_iff_ne.mpr (Ne.symm h1)
    have e2 : ("FLOAT8".data == name) = false := beq_eq_false_iff_ne.mpr (Ne.symm h2)
    have e3 : ("FLOAT32".data == name) = false := beq_eq_false_iff_ne.mpr (Ne.symm h3)
    have e4 : ("FLOAT".data == name) = false := beq_eq_false_iff_ne.mpr (Ne.symm h4)
    have e5 : ("INT2".data == name) = false := beq_eq_false_iff_ne.mpr (Ne.symm h5)
    have e6 : ("INT8".data == name) = false := beq_eq_false_iff_ne.mpr (Ne.symm h6)
    have e7 : ("TINYINT".data == name) = false := beq_eq_false_iff_ne.mpr (Ne.symm h7)
    have e8 : ("INT16".data == name) = false := beq_eq_false_iff_ne.mpr (Ne.symm h8)
    have e9 : ("SMALLINT".data == name) = false := beq_eq_false_iff_ne.mpr (Ne.symm h9)
    simp only [GetConverterList, hugeIntRule, decimalRule, strRules, selectRule,
      List.filter, List.find?, ruleMatches, List.cons_append, List.nil_append,
      e1, e2, e3, e4, e5, e6, e7, e8, e9]
    by_cases hd : matchesDecimalRegex name <;> simp [hd]

/-- Claim C3: for every native type name the converter list selects at
most one applicable rule, and the policy (exact name first, then the
`DECIMAL.*` regex, else pass-through) picks exactly the applicable rule:
when it selects a rule that rule is the unique match, when it selects
none no rule matches; no exact-rule name is captured by the regex rule,
and the regex rule is the only regex-matched (DECIMAL-family) rule. -/
theorem GetConverterList_selection (name : List Char) :
    (∀ r : ConverterRule, selectRule name = some r →
      GetConverterList.filter (fun rr => ruleMatches rr name) = [r]) ∧
    (selectRule name = none →
      GetConverterList.filter (fun rr => ruleMatches rr name) = []) ∧
    (GetConverterList.filter (fun rr => ruleMatches rr name)).length ≤ 1 ∧
    (∀ r ∈ GetConverterList, ∀ nm, r.matcher = .exactName nm →
      matchesDecimalRegex nm = false) ∧
    (∀ r ∈ GetConverterList, r.matcher = .decimalRegex → r = decimalRule) := by
  refine ⟨?_, ?_, ?_, ?_, ?_⟩
  · intro r hr
    rw [filter_eq_selectRule, hr]
    rfl
  · intro hr
    rw [filter_eq_selectRule, hr]
    rfl
  · rw [filter_eq_selectRule]
    cases selectRule name <;> simp
  · intro r hr nm hnm
    fin_cases hr <;>
      first
      | (injection hnm with h; subst h; decide)
      | exact TypeMatcher.noConfusion hnm
  · intro r hr hm
    fin_cases hr <;>
      first
      | exact TypeMatcher.noConfusion hm
      | rfl

/-- Witness for C3: the policy and the filtered matches agree at an
exact name, a DECIMAL-family name and an unmatched name. -/
theorem GetConverterList_selection_witness :
    GetConverterList.filter (fun rr => ruleMatches rr "HUGEINT".data) = [hugeIntRule] ∧
    GetConverterList.filter (fun rr => ruleMatches rr "DECIMAL(18,3)".data) = [decimalRule] ∧
    GetConverterList.filter (fun rr => ruleMatches rr "BLOB".data) = [] :=
  ⟨(GetConverterList_selection "HUGEINT".data).1 hugeIntRule (by rfl),
   (GetConverterList_selection "DECIMAL(18,3)".data).1 decimalRule (by rfl),
   (GetConverterList_selection "BLOB".data).2.1 (by rfl)⟩
